import Mathlib

/-!
Shallow embedding of `src/fetchers/axios.ts` (vue-fetchable).

The file embeds the two core components of the library:

* the ResponseEnvelope Validator: the `request` wrapper around
  `axiosInstance.request`, which inspects the response body's `success`
  discriminant and throws a `BackendFetchError` when it is falsy; and
* the FetchLifecycle Controller: `hookFetch`, whose inner `fetchData`
  closure resets `data`, awaits the producer `fetchFn`, and updates the
  reactive record's `data` / `fetch` / `err` fields.

JavaScript's possibly-missing object fields (`undefined`) are modelled with
`Option`; the `if (!x)` truthiness tests of the source are modelled by
explicit falsiness functions on the optional discriminant and on the
producer's resolved value.  A thrown JavaScript exception is modelled with
`Except` (for the validator) and with an explicit `thrown` constructor of
the producer-outcome type (for the controller, whose `try/catch` converts
the exception into state and never re-raises it: the embedded run function
is total and returns a record, mirroring the promise that always resolves).

The single `await` point of `fetchData` is made explicit by splitting the
closure into its synchronous phase (`fetchDataPending`: everything that
runs before the producer suspends) and its resumption
(`fetchDataResume`: the code that runs once the producer has settled with
an outcome).  `fetchDataRun` composes the two and is the state transition
of one full invocation of the bound `request` action.
-/

namespace VueFetchable

/-- Error payload carried by a failure envelope: the `ErrorDescription`
from `@vottuscode/response-spec` has at least a human-readable `message`
and an implementation-defined numeric code. -/
structure ErrorDescription where
  message : String
  code : Nat
  deriving DecidableEq, Repr

/-- Raw backend response body as the JavaScript object the validator
inspects: each field may be absent (`none` models `undefined`), so both
well-formed `SuccessResponse` / `ErrorResponse` values and malformed
envelopes are representable. -/
structure ResponseBody (T : Type) where
  success : Option Bool
  data : Option T
  error : Option ErrorDescription
  deriving DecidableEq, Repr

/-- The Axios transport response; only the `data` body and the HTTP
status are kept, the other Axios fields are irrelevant to the core. -/
structure AxiosResponse (T : Type) where
  data : ResponseBody T
  status : Nat
  deriving DecidableEq, Repr

/-- Truthiness of the possibly-absent `success` discriminant, as tested by
`if (!request.data.success)`: an absent field (`undefined`) is falsy, a
present boolean is its own truth value. -/
def truthy : Option Bool → Bool
  | none => false
  | some b => b

/-- The `BackendFetchError` class: `name` is set to the string
"BackendFetchError", `message` is set by `super(error.message)`, and the
constructor stores the `ErrorDescription` and the optional raw transport
response. -/
structure BackendFetchError (T : Type) where
  name : String
  message : String
  error : ErrorDescription
  res : Option (AxiosResponse T)
  deriving DecidableEq, Repr

/-- A value thrown out of the validator: either the `BackendFetchError`
built from a failure envelope, or the `TypeError` JavaScript raises when
the `BackendFetchError` constructor evaluates `error.message` with
`error` equal to `undefined` (failure envelope with no `error` field). -/
inductive Thrown (T : Type) where
  | backendFetchError (e : BackendFetchError T)
  | typeError (msg : String)
  deriving DecidableEq, Repr

/-- The `new BackendFetchError(error, res)` constructor call with a
possibly-absent `error` argument: `super(error.message)` runs first, so an
absent `error` raises a `TypeError` before any field is assigned. -/
def mkBackendFetchError (T : Type) (error : Option ErrorDescription)
    (res : Option (AxiosResponse T)) : Except (Thrown T) (BackendFetchError T) :=
  match error with
  | none => Except.error
      (Thrown.typeError "Cannot read properties of undefined (reading message)")
  | some e => Except.ok ⟨"BackendFetchError", e.message, e, res⟩

/-- The `request` wrapper (the ResponseEnvelope Validator): after the
transport call resolves with `resp`, it tests `!resp.data.success`; on a
truthy discriminant it returns the whole `AxiosResponse` unchanged, and on
a falsy one it throws `new BackendFetchError(resp.data.error, resp)`. -/
def request (T : Type) (resp : AxiosResponse T) :
    Except (Thrown T) (AxiosResponse T) :=
  if truthy resp.data.success then Except.ok resp
  else
    match mkBackendFetchError T resp.data.error (some resp) with
    | Except.ok e => Except.error (Thrown.backendFetchError e)
    | Except.error t => Except.error t

/-- The value a producer (`fetchFn`) resolves with, as a JavaScript value:
the declared sentinel `false`, other falsy JavaScript values that the
`if (!res)` test cannot distinguish from it (`null`, `undefined`, `0`,
the empty string), or a transport response. -/
inductive FetchResult (T : Type) where
  | jsFalse
  | jsNull
  | jsUndefined
  | jsZero
  | jsEmptyString
  | response (res : AxiosResponse T)
  deriving DecidableEq, Repr

/-- Falsiness of the resolved value, exactly the `if (!res)` test of
`fetchData`: every modelled value except a response object is falsy. -/
def FetchResult.falsy {T : Type} : FetchResult T → Bool
  | FetchResult.response _ => false
  | _ => true

/-- The `res.data.data` read performed on the success branch of
`fetchData` (only reached when `res` is truthy, i.e. a response). -/
def FetchResult.unwrap {T : Type} : FetchResult T → Option T
  | FetchResult.response res => res.data.data
  | _ => none

/-- How one producer invocation settles: the promise either rejects with a
thrown value (any value — the `catch` binds it untyped) or resolves with a
`FetchResult`. -/
inductive Outcome (T E : Type) where
  | thrown (e : E)
  | resolved (v : FetchResult T)
  deriving DecidableEq, Repr

/-- The observable fields of the reactive record built by `hookFetch`:
`data` (payload or `null`), `err` (caught value or `null`) and the
tri-state `fetch` (`FetchableState = null | boolean`).  The bound
`request` closure itself is modelled by the transition functions below
rather than stored as a field. -/
structure FetchRecord (T E : Type) where
  data : Option T
  err : Option E
  fetch : Option Bool
  deriving DecidableEq, Repr

/-- The `reactiveFetch` helper: spreads the given fields and adds `fetch`
initialised to the given default (`null` when not supplied). -/
def reactiveFetch (T E : Type) (dataInit : Option T) (errInit : Option E)
    (defaultFetch : Option Bool) : FetchRecord T E :=
  ⟨dataInit, errInit, defaultFetch⟩

/-- Synchronous phase of `fetchData`: the statements that run before the
`await fetchFn()` suspension point — `data.data = null` and nothing
else.  This is the record state observable while the producer is still
pending. -/
def fetchDataPending {T E : Type} (st : FetchRecord T E) : FetchRecord T E :=
  { st with data := none }

/-- Resumption of `fetchData` once the awaited producer has settled with
`o`: a rejection is caught and recorded (`fetch = false`,
`err = <thrown value>`); a falsy resolution takes the early return
`return (data.fetch = false)`; a truthy resolution sets `fetch = true`
and `data = res.data.data`. -/
def fetchDataResume {T E : Type} (st : FetchRecord T E) (o : Outcome T E) :
    FetchRecord T E :=
  match o with
  | Outcome.thrown e => { st with fetch := some false, err := some e }
  | Outcome.resolved v =>
    if v.falsy then { st with fetch := some false }
    else { st with fetch := some true, data := v.unwrap }

/-- One full invocation of the bound `request` action on a record in state
`st`, whose producer settles with outcome `o`: the synchronous reset
followed by the resumption.  The function is total: the exception of a
rejected producer is swallowed into the record and never propagated, so
the promise returned by the action always resolves. -/
def fetchDataRun {T E : Type} (st : FetchRecord T E) (o : Outcome T E) :
    FetchRecord T E :=
  fetchDataResume (fetchDataPending st) o

/-- The record as `hookFetch` initialises it: `data` and `err` start as
`null` and `fetch` at the default `null` (the `reactiveFetch` call passes
no explicit default). -/
def initialRecord (T E : Type) : FetchRecord T E :=
  reactiveFetch T E none none none

/-- Construction of the hook by `hookFetch fetchFn auto`: returns the
record state observable immediately after the constructor returns,
together with the number of times the bound `request` action was started
by construction.  With `auto` true, `fetchData()` is invoked once without
being awaited, so its synchronous phase has run but no outcome has been
consumed yet; with `auto` false the record is untouched. -/
def hookFetch (T E : Type) (auto : Bool) : FetchRecord T E × Nat :=
  let st := initialRecord T E
  if auto then (fetchDataPending st, 1) else (st, 0)

/-! ### Claims -/

/-- C1 counterexample: the malformed envelope with `success` true but
`data` absent is NOT rejected by the validator — `request` returns it as
a success (a value returned silently), contradicting the claim that every
malformed envelope yields a deterministic validation failure. -/
theorem C1_counterexample :
    request Nat ⟨⟨some true, none, none⟩, 200⟩ =
      Except.ok ⟨⟨some true, none, none⟩, 200⟩ ∧
    ¬ ∃ t, request Nat ⟨⟨some true, none, none⟩, 200⟩ = Except.error t := by
  refine ⟨rfl, ?_⟩
  rintro ⟨t, ht⟩
  simp [request, truthy] at ht

/-- C1 (amended): for every envelope whose `success` discriminant is falsy
(absent, or present and `false` — which covers a missing discriminant and
`success` false with `error` absent), `request` fails deterministically by
throwing (a `BackendFetchError` when `error` is present, the constructor's
`TypeError` when it is absent) and never returns a value; any value thrown
to the Controller is caught there, recorded in `fetch`/`err`, and never
crashes it.  An envelope with `success` true but `data` absent is not
detected: `request` returns it unchanged as a success. -/
theorem C1_amended (T : Type) (resp : AxiosResponse T)
    (h : truthy resp.data.success = false) :
    (∃ t, request T resp = Except.error t) ∧
    (∀ (E : Type) (st : FetchRecord T E) (e : E),
      (fetchDataRun st (Outcome.thrown e)).fetch = some false ∧
      (fetchDataRun st (Outcome.thrown e)).err = some e) := by
  constructor
  · cases he : resp.data.error with
    | none =>
        exact ⟨Thrown.typeError
          "Cannot read properties of undefined (reading message)",
          by simp [request, h, mkBackendFetchError, he]⟩
    | some d =>
        exact ⟨Thrown.backendFetchError ⟨"BackendFetchError", d.message, d, some resp⟩,
          by simp [request, h, mkBackendFetchError, he]⟩
  · exact fun E st e => ⟨rfl, rfl⟩

/-- C1 witness: the amended theorem applied to the fully-empty envelope. -/
theorem C1_witness :
    truthy (AxiosResponse.mk (T := Nat) ⟨none, none, none⟩ 200).data.success = false ∧
    ((∃ t, request Nat ⟨⟨none, none, none⟩, 200⟩ = Except.error t) ∧
     (∀ (E : Type) (st : FetchRecord Nat E) (e : E),
       (fetchDataRun st (Outcome.thrown e)).fetch = some false ∧
       (fetchDataRun st (Outcome.thrown e)).err = some e)) :=
  ⟨rfl, C1_amended Nat ⟨⟨none, none, none⟩, 200⟩ rfl⟩

/-- C2 counterexample: on the valid success envelope with payload `7`,
`request` does not return the bare unwrapped payload `7` typed as `T`; it
returns the whole transport response unchanged, whose body still carries
the `success` discriminant and the wrapped payload. -/
theorem C2_counterexample :
    request Nat ⟨⟨some true, some 7, none⟩, 200⟩ =
      Except.ok ⟨⟨some true, some 7, none⟩, 200⟩ ∧
    (AxiosResponse.mk (T := Nat) ⟨some true, some 7, none⟩ 200).data.success = some true ∧
    (AxiosResponse.mk (T := Nat) ⟨some true, some 7, none⟩ 200).data.data = some 7 :=
  ⟨rfl, rfl, rfl⟩

/-- C2 (amended): for every valid Success envelope (`success` is `true`
and `data` is present), `request` returns the full transport response
unchanged; the payload inside it is untouched, and unwrapping to `T` is
performed by the caller (the Controller reads `res.data.data`), which
recovers exactly the envelope's payload. -/
theorem C2_amended (T : Type) (resp : AxiosResponse T) (p : T)
    (h1 : resp.data.success = some true) (h2 : resp.data.data = some p) :
    request T resp = Except.ok resp ∧
    Except.map (fun r => r.data.data) (request T resp) = Except.ok (some p) := by
  have hr : request T resp = Except.ok resp := by simp [request, truthy, h1]
  exact ⟨hr, by rw [hr, Except.map, h2]⟩

/-- C2 witness: the amended theorem applied to a success envelope with
payload `9`. -/
theorem C2_witness :
    (AxiosResponse.mk (T := Nat) ⟨some true, some 9, none⟩ 201).data.success = some true ∧
    (AxiosResponse.mk (T := Nat) ⟨some true, some 9, none⟩ 201).data.data = some 9 ∧
    (request Nat ⟨⟨some true, some 9, none⟩, 201⟩ =
       Except.ok ⟨⟨some true, some 9, none⟩, 201⟩ ∧
     Except.map (fun r => r.data.data) (request Nat ⟨⟨some true, some 9, none⟩, 201⟩) =
       Except.ok (some 9)) :=
  ⟨rfl, rfl, C2_amended Nat ⟨⟨some true, some 9, none⟩, 201⟩ 9 rfl rfl⟩

/-- C3: whatever the record's prior state, an invocation whose producer
throws `e` settles with `fetch = false`, `data = null` and `err` equal to
the thrown value; the transition is a total function into records (the
exception is swallowed by the `catch` and the action's promise resolves,
never rejects). -/
theorem C3_producer_throw_swallowed (T E : Type) (st : FetchRecord T E) (e : E) :
    fetchDataRun st (Outcome.thrown e) = ⟨none, some e, some false⟩ :=
  rfl

/-- C4 counterexample: an abort (producer resolves the sentinel `false`)
after a failed invocation leaves the stale error in place — `err` is the
previously thrown value, not `null` as the claim states. -/
theorem C4_counterexample :
    (fetchDataRun
        (fetchDataRun (initialRecord Nat String) (Outcome.thrown "boom"))
        (Outcome.resolved FetchResult.jsFalse)) =
      ⟨none, some "boom", some false⟩ ∧
    (fetchDataRun
        (fetchDataRun (initialRecord Nat String) (Outcome.thrown "boom"))
        (Outcome.resolved FetchResult.jsFalse)).err ≠ none :=
  ⟨rfl, by decide⟩

/-- C4 (amended): an invocation whose producer resolves the abort sentinel
`false` settles with `fetch = false`, `data = null`, and `err` left
untouched at its prior value — no error object is created for an explicit
abort, so `err` is `null` exactly when it was `null` before the invocation
(in particular on a fresh record). -/
theorem C4_amended (T E : Type) (st : FetchRecord T E) :
    fetchDataRun st (Outcome.resolved FetchResult.jsFalse) =
      ⟨none, st.err, some false⟩ :=
  rfl

/-- C5: an invocation whose producer resolves with a (truthy) transport
response settles with `fetch = true` and `data` equal to the payload
unwrapped from the envelope (`res.data.data`), leaving `err` at its prior
value; when every invocation so far resolved successfully the record is
the fresh one, so `err = null` as well. -/
theorem C5_resolved_response (T E : Type) (st : FetchRecord T E)
    (res : AxiosResponse T) :
    fetchDataRun st (Outcome.resolved (FetchResult.response res)) =
      ⟨res.data.data, st.err, some true⟩ ∧
    fetchDataRun (initialRecord T E) (Outcome.resolved (FetchResult.response res)) =
      ⟨res.data.data, none, some true⟩ :=
  ⟨rfl, rfl⟩

/-- C6: for every invocation and every prior state, the synchronous phase
of `fetchData` (the statements before the single `await`) resets `data`
to `null` while leaving `fetch` and `err` unchanged, and the full run
factors through that phase — so `data` is already `null` before the
producer's asynchronous work settles. -/
theorem C6_data_reset_synchronous (T E : Type) (st : FetchRecord T E) :
    (fetchDataPending st).data = none ∧
    (fetchDataPending st).fetch = st.fetch ∧
    (fetchDataPending st).err = st.err ∧
    ∀ o : Outcome T E, fetchDataRun st o = fetchDataResume (fetchDataPending st) o :=
  ⟨rfl, rfl, rfl, fun _ => rfl⟩

/-- C7: on every Failure envelope (`success` is `false` with `error`
present), `request` throws a `BackendFetchError` whose display `message`
equals the envelope's `error.message` and which carries the embedded
`ErrorDescription` together with a reference to the raw transport
response. -/
theorem C7_failure_envelope_classified (T : Type) (resp : AxiosResponse T)
    (d : ErrorDescription)
    (h1 : resp.data.success = some false) (h2 : resp.data.error = some d) :
    request T resp =
      Except.error (Thrown.backendFetchError
        ⟨"BackendFetchError", d.message, d, some resp⟩) := by
  simp [request, truthy, h1, mkBackendFetchError, h2]

/-- C7 witness: the theorem applied to the envelope carrying the
`ErrorDescription` with message "not found" and code 404. -/
theorem C7_witness :
    (AxiosResponse.mk (T := Nat) ⟨some false, none, some ⟨"not found", 404⟩⟩ 200).data.success
      = some false ∧
    (AxiosResponse.mk (T := Nat) ⟨some false, none, some ⟨"not found", 404⟩⟩ 200).data.error
      = some ⟨"not found", 404⟩ ∧
    request Nat ⟨⟨some false, none, some ⟨"not found", 404⟩⟩, 200⟩ =
      Except.error (Thrown.backendFetchError
        ⟨"BackendFetchError", "not found", ⟨"not found", 404⟩,
         some ⟨⟨some false, none, some ⟨"not found", 404⟩⟩, 200⟩⟩) :=
  ⟨rfl, rfl,
    C7_failure_envelope_classified Nat
      ⟨⟨some false, none, some ⟨"not found", 404⟩⟩, 200⟩ ⟨"not found", 404⟩ rfl rfl⟩

/-- C8: constructing the hook with `auto = true` starts the bound
`request` action exactly once, and construction returns synchronously
with the record fully initialised: before the fetch settles (only the
synchronous phase has run, no outcome consumed) `data` is `null` and
`fetch` is the configured default `null` (`err` is `null` too). -/
theorem C8_autostart_construction (T E : Type) :
    hookFetch T E true = (⟨none, none, none⟩, 1) ∧
    (hookFetch T E true).1.data = none ∧
    (hookFetch T E true).1.fetch = none :=
  ⟨rfl, rfl, rfl⟩

/-- C9: no resolved outcome (success or abort) ever writes `err` — only
the catch branch does — so a failed invocation followed by a successful
one leaves the record with `fetch = true`, fresh `data`, and the stale
error still present in `err`. -/
theorem C9_err_never_reset (T E : Type) (st : FetchRecord T E)
    (v : FetchResult T) (e : E) (res : AxiosResponse T) :
    (fetchDataRun st (Outcome.resolved v)).err = st.err ∧
    fetchDataRun (fetchDataRun st (Outcome.thrown e))
        (Outcome.resolved (FetchResult.response res)) =
      ⟨res.data.data, some e, some true⟩ := by
  refine ⟨?_, rfl⟩
  cases v <;> rfl

/-- C10: the abort test of `fetchData` is JavaScript falsiness
(`if (!res)`), not identity with the documented sentinel `false`: every
falsy resolved value — `null`, `undefined`, `0`, the empty string, as
well as `false` itself — takes the abort path, settling with
`fetch = false`, `data = null`, no payload read and `err` untouched. -/
theorem C10_falsy_takes_abort_path (T E : Type) (st : FetchRecord T E)
    (v : FetchResult T) (h : v.falsy = true) :
    fetchDataRun st (Outcome.resolved v) = ⟨none, st.err, some false⟩ ∧
    (FetchResult.jsNull : FetchResult T).falsy = true ∧
    (FetchResult.jsUndefined : FetchResult T).falsy = true ∧
    (FetchResult.jsZero : FetchResult T).falsy = true ∧
    (FetchResult.jsEmptyString : FetchResult T).falsy = true := by
  refine ⟨?_, rfl, rfl, rfl, rfl⟩
  simp [fetchDataRun, fetchDataResume, fetchDataPending, h]

/-- C10 witness: the theorem applied to the resolved value `null` on a
dirty record. -/
theorem C10_witness :
    (FetchResult.jsNull : FetchResult Nat).falsy = true ∧
    (fetchDataRun (⟨some 3, none, some true⟩ : FetchRecord Nat String)
        (Outcome.resolved FetchResult.jsNull) =
      ⟨none, none, some false⟩ ∧
     (FetchResult.jsNull : FetchResult Nat).falsy = true ∧
     (FetchResult.jsUndefined : FetchResult Nat).falsy = true ∧
     (FetchResult.jsZero : FetchResult Nat).falsy = true ∧
     (FetchResult.jsEmptyString : FetchResult Nat).falsy = true) :=
  ⟨rfl, C10_falsy_takes_abort_path Nat String ⟨some 3, none, some true⟩
    FetchResult.jsNull rfl⟩

end VueFetchable
